import Mathlib

/-!
Shallow embedding of `src/PostgresStore.js` from the wwebjs-postgres
repository: a Postgres-backed session store for browser-automation session
archives.  The table is modelled as a list of rows, time as a natural number
of milliseconds (as produced by `Date.now()` / observed by SQL `NOW()`),
byte blobs as lists of naturals, and the JSONB metadata column as an
association list of string keys to JSON values.  Each store operation is a
pure function of the table state and the current time, following the SQL
statements in the source line by line.
-/

namespace WwebjsPostgres

/-- JSON-compatible values stored in the JSONB `metadata` column. -/
inductive JVal where
  | str (s : String)
  | num (n : Int)
  deriving DecidableEq, Repr

/-- One row of the sessions table (schema from `#ensureInitialized`):
`session_id` primary key, `session_data` blob, `metadata` JSONB,
`created_at` / `updated_at` timestamps defaulting to `NOW()`,
nullable `expires_at`. -/
structure Row where
  session_id : String
  session_data : List Nat
  metadata : List (String × JVal)
  created_at : Nat
  updated_at : Nat
  expires_at : Option Nat
  deriving DecidableEq, Repr

/-- The sessions table: a list of rows. -/
abbrev Table := List Row

/-- `#getSessionId(session)`: `` `whatsapp-${session}` ``. -/
def getSessionId (session : String) : String := "whatsapp-" ++ session

/-- The `replace` call in `listSessions` that removes a leading
`whatsapp-` prefix from `session_id` if present (the prefix has
9 characters; an anchored regex replaces at most the leading match). -/
def stripName (id : String) : String :=
  if "whatsapp-".data.isPrefixOf id.data then String.mk (id.data.drop 9) else id

/-- The predicate `expires_at IS NULL OR expires_at > NOW()` on an
`expires_at` value at query time `now`. -/
def activeExp (now : Nat) (exp : Option Nat) : Bool :=
  match exp with
  | none => true
  | some e => decide (now < e)

/-- The active-session predicate applied to one row at query time `now`. -/
def isActive (now : Nat) (r : Row) : Bool :=
  activeExp now r.expires_at

/-- A JavaScript `Error` object as far as the store inspects it:
an optional `code` property and a `message`. -/
structure JsError where
  code : Option String
  message : String
  deriving DecidableEq, Repr

/-- `sessionExists`: `SELECT ... WHERE session_id = $1 AND (expires_at IS
NULL OR expires_at > NOW())`, returning `result.rowCount > 0`. -/
def sessionExists (tbl : Table) (now : Nat) (session : String) : Bool :=
  decide (0 < tbl.countP (fun r => r.session_id == getSessionId session && isActive now r))

/-- The archive path `save` reads: `` `${session}.zip` ``. -/
def savePath (session : String) : String := session ++ ".zip"

/-- The metadata object computed by `save`:
`{originalFilename, size, lastModified: Date.now()}`. -/
def saveMetadata (session : String) (data : List Nat) (now : Nat) : List (String × JVal) :=
  [("originalFilename", JVal.str (savePath session)),
   ("size", JVal.num data.length),
   ("lastModified", JVal.num now)]

/-- `save`'s expiration: `new Date(Date.now() + sessionTTL * 1000)` when a
TTL (in seconds) is configured, otherwise null. -/
def ttlExpiresAt (ttl : Option Nat) (now : Nat) : Option Nat :=
  ttl.map (fun t => now + t * 1000)

/-- `save`'s catch block: `ENOENT` becomes the distinct
`Session file not found: <path>` message, anything else is wrapped as
`Failed to save session: <message>`. -/
def saveCatch (filePath : String) (e : JsError) : String :=
  if e.code = some "ENOENT" then "Session file not found: " ++ filePath
  else "Failed to save session: " ++ e.message

/-- The `ON CONFLICT (session_id) DO UPDATE` assignment of `save`:
`session_data = $2, metadata = $3, updated_at = NOW(), expires_at = $4`
(`created_at` is not assigned). -/
def upsertRow (data : List Nat) (md : List (String × JVal)) (now : Nat)
    (exp : Option Nat) (r : Row) : Row :=
  { r with session_data := data, metadata := md, updated_at := now, expires_at := exp }

/-- `save`: reads the archive at `` `${session}.zip` `` (modelled as the
`file` argument; `none` means the file is absent and `access` raises
`ENOENT`), computes metadata and expiration, and executes the single
`INSERT ... ON CONFLICT (session_id) DO UPDATE` statement.  On insert the
column defaults set `created_at = updated_at = NOW()`. -/
def save (tbl : Table) (now : Nat) (ttl : Option Nat) (session : String)
    (file : Option (List Nat)) : Except String Table :=
  let sessionId := getSessionId session
  let filePath := savePath session
  match file with
  | none => .error (saveCatch filePath ⟨some "ENOENT", "no such file or directory"⟩)
  | some sessionData =>
    let md := saveMetadata session sessionData now
    let exp := ttlExpiresAt ttl now
    if tbl.any (fun r => r.session_id == sessionId) then
      .ok (tbl.map (fun r =>
        if r.session_id == sessionId then upsertRow sessionData md now exp r else r))
    else
      .ok (tbl ++ [⟨sessionId, sessionData, md, now, now, exp⟩])

/-- `extract`'s catch block: every error reaching it (including the
not-found error thrown inside the try) is wrapped as
`Failed to extract session: <message>`. -/
def extractCatch (e : JsError) : String := "Failed to extract session: " ++ e.message

/-- The message of the error thrown by `extract` when no active row
matches: `` `Session ${session} not found or expired` ``. -/
def notFoundMsg (session : String) : String :=
  "Session " ++ session ++ " not found or expired"

/-- The observable outcome of one `extract` call: the returned metadata or
the raised error message, the table afterwards, the bytes written to the
destination path (if the write happened), and the number of SQL statements
issued against the table. -/
instance {ε α : Type} [DecidableEq ε] [DecidableEq α] : DecidableEq (Except ε α) := fun a b =>
  match a, b with
  | .error e1, .error e2 =>
    if h : e1 = e2 then .isTrue (by rw [h]) else .isFalse (by simp [h])
  | .error _, .ok _ => .isFalse (by simp)
  | .ok _, .error _ => .isFalse (by simp)
  | .ok v1, .ok v2 =>
    if h : v1 = v2 then .isTrue (by rw [h]) else .isFalse (by simp [h])

structure ExtractResult where
  outcome : Except String (List (String × JVal))
  table : Table
  written : Option (List Nat)
  stmts : Nat
  deriving DecidableEq, Repr

/-- `extract`: `SELECT session_data, metadata ... WHERE session_id = $1 AND
(expires_at IS NULL OR expires_at > NOW())`; if no row, throw the
not-found error (re-wrapped by the catch); else write the blob to the
destination (`writeErr` models a failing `writeFile`), then issue a second
statement `UPDATE ... SET updated_at = NOW() WHERE session_id = $1` and
return the metadata. -/
def extract (tbl : Table) (now : Nat) (session : String)
    (writeErr : Option JsError) : ExtractResult :=
  let sessionId := getSessionId session
  match tbl.find? (fun r => r.session_id == sessionId && isActive now r) with
  | none => ⟨.error (extractCatch ⟨none, notFoundMsg session⟩), tbl, none, 1⟩
  | some r =>
    match writeErr with
    | some e => ⟨.error (extractCatch e), tbl, none, 1⟩
    | none =>
      ⟨.ok r.metadata,
       tbl.map (fun r2 =>
         if r2.session_id == sessionId then { r2 with updated_at := now } else r2),
       some r.session_data, 2⟩

/-- `delete`: `DELETE FROM ... WHERE session_id = $1` (no TTL filter),
returning the table afterwards and `result.rowCount > 0`. -/
def deleteSession (tbl : Table) (session : String) : Table × Bool :=
  let sessionId := getSessionId session
  (tbl.filter (fun r => !(r.session_id == sessionId)),
   decide (0 < tbl.countP (fun r => r.session_id == sessionId)))

/-- The `ORDER BY updated_at DESC` relation used by `listSessions`. -/
def updGe (x y : Row) : Prop := y.updated_at ≤ x.updated_at

instance : DecidableRel updGe := fun x y => Nat.decLe y.updated_at x.updated_at

instance : IsTotal Row updGe := ⟨fun x y => Nat.le_total y.updated_at x.updated_at⟩

instance : IsTrans Row updGe := ⟨fun _ _ _ h1 h2 => Nat.le_trans h2 h1⟩

/-- One element of `listSessions`' result:
`{session, metadata, createdAt, updatedAt, expiresAt}` with the namespace
prefix stripped from the session name. -/
structure SessionInfo where
  session : String
  metadata : List (String × JVal)
  createdAt : Nat
  updatedAt : Nat
  expiresAt : Option Nat
  deriving DecidableEq, Repr

/-- `listSessions`: `SELECT ... WHERE expires_at IS NULL OR expires_at >
NOW() ORDER BY updated_at DESC`, then map each row to the result record
with the prefix stripped. -/
def listSessions (tbl : Table) (now : Nat) : List SessionInfo :=
  ((tbl.filter (isActive now)).insertionSort updGe).map
    (fun r => ⟨stripName r.session_id, r.metadata, r.created_at, r.updated_at, r.expires_at⟩)

/-- The record returned by `getSessionMetadata`:
`metadata, created_at, updated_at, expires_at`. -/
structure MetaRecord where
  metadata : List (String × JVal)
  created_at : Nat
  updated_at : Nat
  expires_at : Option Nat
  deriving DecidableEq, Repr

/-- `getSessionMetadata`: active-filtered select by id, returning the first
row's record or null. -/
def getSessionMetadata (tbl : Table) (now : Nat) (session : String) : Option MetaRecord :=
  (tbl.find? (fun r => r.session_id == getSessionId session && isActive now r)).map
    (fun r => ⟨r.metadata, r.created_at, r.updated_at, r.expires_at⟩)

/-- Postgres JSONB `||` on objects: keys of the right operand win, keys of
the left operand not present on the right are kept. -/
def jsonbConcat (old incoming : List (String × JVal)) : List (String × JVal) :=
  old.filter (fun p => (incoming.lookup p.1).isNone) ++ incoming

/-- `updateSessionMetadata`: `UPDATE ... SET metadata = metadata || $2,
updated_at = NOW() WHERE session_id = $1 AND (expires_at IS NULL OR
expires_at > NOW())`, returning the table and `rowCount > 0`. -/
def updateSessionMetadata (tbl : Table) (now : Nat) (session : String)
    (md : List (String × JVal)) : Table × Bool :=
  let sessionId := getSessionId session
  let hit := fun (r : Row) => r.session_id == sessionId && isActive now r
  (tbl.map (fun r =>
    if hit r then { r with metadata := jsonbConcat r.metadata md, updated_at := now } else r),
   decide (0 < tbl.countP hit))

/-- `cleanupExpiredSessions`: `DELETE ... WHERE expires_at IS NOT NULL AND
expires_at <= NOW()`, returning the table and the removed-row count. -/
def cleanupExpiredSessions (tbl : Table) (now : Nat) : Table × Nat :=
  (tbl.filter (fun r => !(r.expires_at.any (fun e => decide (e ≤ now)))),
   tbl.countP (fun r => r.expires_at.any (fun e => decide (e ≤ now))))

/-- The pool the constructed store uses: either the caller-supplied pool or
one built from the connection parameters (`new Pool(connectionConfig)`). -/
inductive PoolRef where
  | supplied (p : Nat)
  | builtFrom (cfg : String)
  deriving DecidableEq, Repr

/-- The constructor's `options` argument.  Pools are identified by a
number; the connection parameters are opaque and modelled as a string. -/
structure StoreOptions where
  pool : Option Nat
  connectionConfig : Option String
  tableName : Option String
  sessionTTL : Option Nat
  deriving DecidableEq, Repr

/-- The fields the constructor assigns. -/
structure Store where
  pool : PoolRef
  initialized : Bool
  tableName : String
  sessionTTL : Option Nat
  deriving DecidableEq, Repr

/-- `options.pool || new Pool(options.connectionConfig)`: a supplied pool
object is truthy, so it wins and `new Pool` is never evaluated. -/
def resolvePool (pool : Option Nat) (cfg : Option String) : PoolRef :=
  match pool with
  | some p => PoolRef.supplied p
  | none => PoolRef.builtFrom (cfg.getD "")

/-- `options.tableName || 'whatsapp_sessions'` (the empty string is falsy). -/
def orDefaultName (v : Option String) : String :=
  match v with
  | some s => if s = "" then "whatsapp_sessions" else s
  | none => "whatsapp_sessions"

/-- `options.sessionTTL || null` (zero is falsy and becomes null). -/
def orNullTTL (v : Option Nat) : Option Nat :=
  match v with
  | some n => if n = 0 then none else some n
  | none => none

/-- The constructor: throws when neither a pool nor connection parameters
are supplied, otherwise assigns `pool`, `initialized = false`, `tableName`
and `sessionTTL`. -/
def mkStore (o : StoreOptions) : Except String Store :=
  if o.pool = none ∧ o.connectionConfig = none then
    .error "Either pool or connectionConfig must be provided"
  else
    .ok ⟨resolvePool o.pool o.connectionConfig, false,
         orDefaultName o.tableName, orNullTTL o.sessionTTL⟩

/-! ## Basic lemmas about the embedded operations -/

/-- Stripping the namespace prefix undoes `getSessionId`. -/
theorem stripName_getSessionId (s : String) : stripName (getSessionId s) = s := by
  obtain ⟨l⟩ := s
  have hpre : "whatsapp-".data.isPrefixOf (("whatsapp-" ++ String.mk l).data) = true :=
    List.isPrefixOf_iff_prefix.mpr (List.prefix_append _ _)
  simp only [stripName, getSessionId, hpre, if_true]
  show String.mk ((("whatsapp-".data ++ l)).drop 9) = String.mk l
  have h9 : ("whatsapp-".data).length = 9 := rfl
  rw [← h9, List.drop_left]

/-- A map that fixes every element of a list leaves the list unchanged. -/
theorem map_fix_eq_self {f : Row → Row} {l : Table} (h : ∀ a ∈ l, f a = a) :
    l.map f = l := by
  induction l with
  | nil => rfl
  | cons a t ih =>
    simp only [List.map_cons, h a (List.mem_cons_self a t), List.cons.injEq, true_and]
    exact ih (fun x hx => h x (List.mem_cons_of_mem a hx))

/-- Association-list lookup distributes over append. -/
theorem lookup_append_or (k : String) (l1 l2 : List (String × JVal)) :
    (l1 ++ l2).lookup k = ((l1.lookup k).or (l2.lookup k)) := by
  induction l1 with
  | nil => rfl
  | cons p t ih =>
    obtain ⟨a, v⟩ := p
    cases hka : (k == a) <;> simp [List.lookup_cons, hka, ih]

/-- Keys absent from `incoming` survive the filter in `jsonbConcat`. -/
theorem lookup_filter_keep (k : String) (incoming old : List (String × JVal))
    (h : incoming.lookup k = none) :
    (old.filter (fun p => (incoming.lookup p.1).isNone)).lookup k = old.lookup k := by
  induction old with
  | nil => rfl
  | cons p t ih =>
    obtain ⟨a, v⟩ := p
    by_cases hka : k = a
    · subst hka
      have hin : (List.lookup k incoming).isNone = true := by simp [h]
      simp [List.filter_cons, hin, List.lookup_cons]
    · have hbeq : (k == a) = false := beq_eq_false_iff_ne.mpr hka
      cases hin : (List.lookup a incoming).isNone <;>
        simp [List.filter_cons, hin, List.lookup_cons, hbeq, ih]

/-- Keys present in `incoming` are removed by the filter in `jsonbConcat`. -/
theorem lookup_filter_drop (k : String) (incoming old : List (String × JVal))
    (h : (incoming.lookup k).isSome) :
    (old.filter (fun p => (incoming.lookup p.1).isNone)).lookup k = none := by
  induction old with
  | nil => rfl
  | cons p t ih =>
    obtain ⟨a, v⟩ := p
    by_cases hka : k = a
    · subst hka
      have hin : (List.lookup k incoming).isNone = false := by
        cases hv : List.lookup k incoming
        · rw [hv] at h; simp at h
        · rfl
      simp [List.filter_cons, hin, ih]
    · have hbeq : (k == a) = false := beq_eq_false_iff_ne.mpr hka
      cases hin : (List.lookup a incoming).isNone <;>
        simp [List.filter_cons, hin, List.lookup_cons, hbeq, ih]

/-- JSONB `||` keeps the left value on keys the incoming map lacks. -/
theorem jsonbConcat_lookup_none (old incoming : List (String × JVal)) (k : String)
    (h : incoming.lookup k = none) :
    (jsonbConcat old incoming).lookup k = old.lookup k := by
  unfold jsonbConcat
  rw [lookup_append_or, lookup_filter_keep k incoming old h, h]
  cases List.lookup k old <;> rfl

/-- JSONB `||` takes the incoming value on keys the incoming map has. -/
theorem jsonbConcat_lookup_some (old incoming : List (String × JVal)) (k : String)
    (v : JVal) (h : incoming.lookup k = some v) :
    (jsonbConcat old incoming).lookup k = some v := by
  unfold jsonbConcat
  rw [lookup_append_or, lookup_filter_drop k incoming old (by simp [h]), h]
  rfl

/-- `save` on a table with no row for the session id appends a fresh row
whose timestamps both come from the insert's column defaults. -/
theorem save_fresh (tbl : Table) (now : Nat) (ttl : Option Nat) (session : String)
    (data : List Nat) (h : ∀ r ∈ tbl, r.session_id ≠ getSessionId session) :
    save tbl now ttl session (some data) =
      .ok (tbl ++ [⟨getSessionId session, data, saveMetadata session data now,
                    now, now, ttlExpiresAt ttl now⟩]) := by
  have hany : (tbl.any fun r => r.session_id == getSessionId session) = false := by
    rw [List.any_eq_false]
    intro r hr
    simp [h r hr]
  simp [save, hany]

/-- `save` on a table already holding the session id runs the
`ON CONFLICT DO UPDATE` branch on every row with that id. -/
theorem save_conflict (tbl : Table) (now : Nat) (ttl : Option Nat) (session : String)
    (data : List Nat)
    (h : (tbl.any fun r => r.session_id == getSessionId session) = true) :
    save tbl now ttl session (some data) =
      .ok (tbl.map fun r =>
        if r.session_id == getSessionId session then
          upsertRow data (saveMetadata session data now) now (ttlExpiresAt ttl now) r
        else r) := by
  simp [save, h]

/-! ## Claim theorems -/

/-- C10: when the constructor receives both a pre-built pool and connection
parameters, it uses the supplied pool (never building one from the
parameters), and the connection parameters do not influence the
constructed store at all. -/
theorem c10_pool_wins (p : Nat) (cfg : String) (tn : Option String) (ttl : Option Nat) :
    (mkStore ⟨some p, some cfg, tn, ttl⟩).map Store.pool = .ok (PoolRef.supplied p) ∧
    (∀ cfg2 : String, mkStore ⟨some p, some cfg, tn, ttl⟩ = mkStore ⟨some p, some cfg2, tn, ttl⟩) := by
  constructor
  · simp [mkStore, resolvePool, Except.map]
  · intro cfg2
    simp [mkStore, resolvePool]

/-- C6: `delete` removes the row for a name regardless of its expiration
state and returns true; for a name with no row it returns false and leaves
the table unchanged. -/
theorem c6_delete_bypasses_ttl (tbl : Table) (session : String) :
    ((∃ r ∈ tbl, r.session_id = getSessionId session) →
      (deleteSession tbl session).2 = true ∧
      ∀ r ∈ (deleteSession tbl session).1, r.session_id ≠ getSessionId session) ∧
    ((∀ r ∈ tbl, r.session_id ≠ getSessionId session) →
      (deleteSession tbl session).2 = false ∧ (deleteSession tbl session).1 = tbl) := by
  constructor
  · rintro ⟨r, hr, hid⟩
    constructor
    · simp only [deleteSession, decide_eq_true_eq]
      exact List.countP_pos_iff.mpr ⟨r, hr, by simp [hid]⟩
    · intro r2 hr2 he
      simp only [deleteSession, List.mem_filter] at hr2
      rcases hr2 with ⟨_, hneq⟩
      simp [he] at hneq
  · intro h
    have hzero : tbl.countP (fun r => r.session_id == getSessionId session) = 0 :=
      List.countP_eq_zero.mpr (by intro a ha; simp [h a ha])
    constructor
    · simp [deleteSession, hzero]
    · simp only [deleteSession]
      exact List.filter_eq_self.mpr (by intro a ha; simp [h a ha])

/-- Witness for C6: a concrete expired row is deleted with result true,
and deleting from an empty table yields false. -/
theorem c6_witness :
    (deleteSession [⟨"whatsapp-a", [0], [], 0, 0, some 5⟩] "a").2 = true ∧
    (deleteSession ([] : Table) "a").2 = false :=
  ⟨((c6_delete_bypasses_ttl [⟨"whatsapp-a", [0], [], 0, 0, some 5⟩] "a").1
      ⟨⟨"whatsapp-a", [0], [], 0, 0, some 5⟩, by decide, by decide⟩).1,
   ((c6_delete_bypasses_ttl ([] : Table) "a").2 (by intro r hr; cases hr)).1⟩

/-- C4 counterexample: on a table with one active row, a successful
`extract` issues two SQL statements (the SELECT and the separate
`updated_at` refresh), not one. -/
theorem c4_counterexample :
    (extract [⟨"whatsapp-a", [9], [], 0, 0, none⟩] 5 "a" none).stmts = 2 ∧ 2 ≠ 1 := by
  decide

/-- C4 (amended): every operation other than `extract` is a single
statement, but a successful `extract` issues two statements — the SELECT
and then a separate UPDATE refreshing `updated_at` — creating a
multi-statement window; on the not-found and failed-write paths only the
SELECT runs. -/
theorem c4_extract_statement_count (tbl : Table) (now : Nat) (session : String) (r : Row)
    (hfind : tbl.find? (fun r2 => r2.session_id == getSessionId session && isActive now r2)
      = some r) :
    (extract tbl now session none).stmts = 2 ∧
    (∀ e : JsError, (extract tbl now session (some e)).stmts = 1) ∧
    (∀ (tbl2 : Table) (now2 : Nat) (s2 : String) (w : Option JsError),
      tbl2.find? (fun r2 => r2.session_id == getSessionId s2 && isActive now2 r2) = none →
      (extract tbl2 now2 s2 w).stmts = 1) := by
  refine ⟨?_, ?_, ?_⟩
  · simp [extract, hfind]
  · intro e
    simp [extract, hfind]
  · intro tbl2 now2 s2 w h2
    simp [extract, h2]

/-- Witness for C4's amended theorem at a concrete one-row table. -/
theorem c4_witness :
    (extract [⟨"whatsapp-a", [9], [], 0, 0, none⟩] 5 "a" none).stmts = 2 ∧
    (extract ([] : Table) 5 "a" none).stmts = 1 := by
  have h := c4_extract_statement_count [⟨"whatsapp-a", [9], [], 0, 0, none⟩] 5 "a"
    ⟨"whatsapp-a", [9], [], 0, 0, none⟩ (by decide)
  exact ⟨h.1, h.2.2 [] 5 "a" none (by decide)⟩

/-- C3 counterexample: the stored metadata of an existing session contains
the key `c`; a second `save` does not supply `c`, yet afterwards `c` is
gone — `save`'s conflict branch replaces the whole metadata map. -/
theorem c3_counterexample :
    List.lookup "c" [("c", JVal.num 1)] = some (JVal.num 1) ∧
    save [⟨"whatsapp-a", [0], [("c", JVal.num 1)], 0, 0, none⟩] 5 none "a" (some [1, 2]) =
      .ok [⟨"whatsapp-a", [1, 2],
            [("originalFilename", JVal.str "a.zip"), ("size", JVal.num 2),
             ("lastModified", JVal.num 5)], 0, 5, none⟩] ∧
    List.lookup "c"
      [("originalFilename", JVal.str "a.zip"), ("size", JVal.num 2),
       ("lastModified", JVal.num 5)] = none := by
  decide

/-- C3 (amended): `updateSessionMetadata` shallow-merges the supplied keys
into the stored metadata — unsupplied keys keep their old values, supplied
keys take the incoming values — but `save` replaces the stored metadata
map wholesale with the freshly computed
`{originalFilename, size, lastModified}` map. -/
theorem c3_metadata_merge_vs_replace (tbl : Table) (now : Nat) (session : String)
    (md old : List (String × JVal)) (k : String) :
    (md.lookup k = none → (jsonbConcat old md).lookup k = old.lookup k) ∧
    (∀ v, md.lookup k = some v → (jsonbConcat old md).lookup k = some v) ∧
    ((updateSessionMetadata tbl now session md).1 =
      tbl.map (fun r =>
        if r.session_id == getSessionId session && isActive now r then
          { r with metadata := jsonbConcat r.metadata md, updated_at := now }
        else r)) ∧
    (∀ (ttl : Option Nat) (data : List Nat) (tbl2 : Table),
      save tbl now ttl session (some data) = .ok tbl2 →
      ∀ r ∈ tbl2, r.session_id = getSessionId session →
        r.metadata = saveMetadata session data now) := by
  refine ⟨fun h => jsonbConcat_lookup_none old md k h,
          fun v h => jsonbConcat_lookup_some old md k v h, rfl, ?_⟩
  intro ttl data tbl2 hsave r hr hid
  by_cases hany : (tbl.any fun r2 => r2.session_id == getSessionId session) = true
  · rw [save_conflict tbl now ttl session data hany] at hsave
    obtain rfl : _ = tbl2 := Except.ok.inj hsave
    obtain ⟨r0, hr0, hmap⟩ := List.mem_map.mp hr
    by_cases hbeq : (r0.session_id == getSessionId session) = true
    · rw [if_pos hbeq] at hmap
      rw [← hmap]
      rfl
    · rw [if_neg hbeq] at hmap
      subst hmap
      exact absurd (by simp [hid]) hbeq
  · have hfresh : ∀ r2 ∈ tbl, r2.session_id ≠ getSessionId session := by
      intro r2 hr2 he
      exact hany (List.any_eq_true.mpr ⟨r2, hr2, by simp [he]⟩)
    rw [save_fresh tbl now ttl session data hfresh] at hsave
    obtain rfl : _ = tbl2 := Except.ok.inj hsave
    rcases List.mem_append.mp hr with hin | hin
    · exact absurd hid (hfresh r hin)
    · rcases List.mem_singleton.mp hin with rfl
      rfl

/-- Witness for C3's amended theorem: merging keeps an unsupplied key and
takes the incoming value of a supplied key; a concrete conflicting `save`
leaves the computed metadata only. -/
theorem c3_witness :
    (jsonbConcat [("c", JVal.num 1)] [("b", JVal.num 3)]).lookup "c" = some (JVal.num 1) ∧
    (jsonbConcat [("c", JVal.num 1)] [("b", JVal.num 3)]).lookup "b" = some (JVal.num 3) := by
  have h := c3_metadata_merge_vs_replace ([] : Table) 0 "a"
    [("b", JVal.num 3)] [("c", JVal.num 1)] "c"
  have h2 := c3_metadata_merge_vs_replace ([] : Table) 0 "a"
    [("b", JVal.num 3)] [("c", JVal.num 1)] "b"
  exact ⟨(h.1 (by decide)).trans (by decide), h2.2.1 (JVal.num 3) (by decide)⟩

/-- C9: if the destination write fails, `extract` raises the wrapped write
error, returns no metadata, and leaves the table — in particular
`updated_at` — unchanged; only after a successful write does the second
statement refresh `updated_at`. -/
theorem c9_extract_failed_write_leaves_row (tbl : Table) (now : Nat) (session : String)
    (e : JsError) (r : Row)
    (hfind : tbl.find? (fun r2 => r2.session_id == getSessionId session && isActive now r2)
      = some r) :
    (extract tbl now session (some e)).outcome = .error (extractCatch e) ∧
    (extract tbl now session (some e)).table = tbl ∧
    (extract tbl now session (some e)).written = none ∧
    (extract tbl now session none).table =
      tbl.map (fun r2 =>
        if r2.session_id == getSessionId session then { r2 with updated_at := now } else r2) := by
  refine ⟨?_, ?_, ?_, ?_⟩ <;> simp [extract, hfind]

/-- Witness for C9 at a concrete one-row table and failing write. -/
theorem c9_witness :
    (extract [⟨"whatsapp-a", [9], [], 0, 0, none⟩] 5 "a" (some ⟨none, "disk full"⟩)).table =
      [⟨"whatsapp-a", [9], [], 0, 0, none⟩] ∧
    (extract [⟨"whatsapp-a", [9], [], 0, 0, none⟩] 5 "a" (some ⟨none, "disk full"⟩)).outcome =
      .error "Failed to extract session: disk full" :=
  have h := c9_extract_failed_write_leaves_row [⟨"whatsapp-a", [9], [], 0, 0, none⟩] 5 "a"
    ⟨none, "disk full"⟩ ⟨"whatsapp-a", [9], [], 0, 0, none⟩ (by decide)
  ⟨h.2.1, h.1⟩

/-- C5: on an active session whose stored metadata is `{a:1, b:2}`,
`updateSessionMetadata` with `{b:3, c:4}` returns true and leaves the
stored metadata equal to `{a:1, b:3, c:4}` with `updated_at` refreshed. -/
theorem c5_update_metadata_merge (tbl : Table) (now : Nat) (session : String)
    (hex : ∃ r ∈ tbl, r.session_id = getSessionId session)
    (hall : ∀ r ∈ tbl, r.session_id = getSessionId session →
      isActive now r = true ∧ r.metadata = [("a", JVal.num 1), ("b", JVal.num 2)]) :
    (updateSessionMetadata tbl now session [("b", JVal.num 3), ("c", JVal.num 4)]).2 = true ∧
    ∀ r ∈ (updateSessionMetadata tbl now session [("b", JVal.num 3), ("c", JVal.num 4)]).1,
      r.session_id = getSessionId session →
        r.metadata = [("a", JVal.num 1), ("b", JVal.num 3), ("c", JVal.num 4)] ∧
        r.updated_at = now := by
  constructor
  · obtain ⟨r, hr, hid⟩ := hex
    simp only [updateSessionMetadata, decide_eq_true_eq]
    exact List.countP_pos_iff.mpr ⟨r, hr, by simp [hid, (hall r hr hid).1]⟩
  · intro r hr hid
    simp only [updateSessionMetadata, List.mem_map] at hr
    obtain ⟨r0, hr0, hmap⟩ := hr
    by_cases hhit : (r0.session_id == getSessionId session && isActive now r0) = true
    · rw [if_pos hhit] at hmap
      subst hmap
      obtain ⟨-, hmd⟩ := hall r0 hr0 (by
        have h12 := hhit
        simp only [Bool.and_eq_true, beq_iff_eq] at h12
        exact h12.1)
      rw [hmd]
      exact ⟨rfl, rfl⟩
    · rw [if_neg hhit] at hmap
      subst hmap
      obtain ⟨hact, -⟩ := hall r0 hr0 hid
      exact absurd (by simp [hid, hact]) hhit

/-- Witness for C5 at a concrete one-row table. -/
theorem c5_witness :
    (updateSessionMetadata [⟨"whatsapp-s", [0], [("a", JVal.num 1), ("b", JVal.num 2)], 0, 0, none⟩]
      7 "s" [("b", JVal.num 3), ("c", JVal.num 4)]).2 = true :=
  (c5_update_metadata_merge
    [⟨"whatsapp-s", [0], [("a", JVal.num 1), ("b", JVal.num 2)], 0, 0, none⟩] 7 "s"
    ⟨⟨"whatsapp-s", [0], [("a", JVal.num 1), ("b", JVal.num 2)], 0, 0, none⟩,
      by decide, by decide⟩
    (by intro r hr hid; rcases List.mem_singleton.mp hr with rfl; exact ⟨rfl, rfl⟩)).1

/-- C7 counterexample: `extract`'s not-found error is thrown inside the
try block and re-wrapped by the same catch that wraps database errors, so
the surfaced message carries the same `Failed to extract session: `
operation prefix as a wrapped database error — it is not a separate,
unwrapped error. -/
theorem c7_counterexample :
    (extract ([] : Table) 0 "a" none).outcome =
      .error "Failed to extract session: Session a not found or expired" ∧
    extractCatch ⟨some "57P01", "db down"⟩ = "Failed to extract session: db down" ∧
    ("Failed to extract session: ".data.isPrefixOf
      "Failed to extract session: Session a not found or expired".data) = true := by
  decide

/-- C7 (amended): `save` with a missing archive raises the distinct,
unwrapped `Session file not found: <path>` error naming the file; `extract`
with no active row raises the `not found or expired` message, but wrapped
by `extract`'s catch with the same operation context used for database
errors; any other failure is wrapped with the failing operation's
context. -/
theorem c7_error_taxonomy (session : String) (tbl : Table) (now : Nat) (ttl : Option Nat)
    (e : JsError) (he : e.code ≠ some "ENOENT")
    (hnone : tbl.find? (fun r2 => r2.session_id == getSessionId session && isActive now r2)
      = none) :
    save tbl now ttl session none = .error ("Session file not found: " ++ savePath session) ∧
    saveCatch (savePath session) e = "Failed to save session: " ++ e.message ∧
    (extract tbl now session none).outcome = .error (extractCatch ⟨none, notFoundMsg session⟩) ∧
    extractCatch e = "Failed to extract session: " ++ e.message := by
  refine ⟨by simp [save, saveCatch], ?_, by simp [extract, hnone], rfl⟩
  simp [saveCatch, he]

/-- Witness for C7's amended theorem at a concrete database error and an
empty table. -/
theorem c7_witness :
    save ([] : Table) 0 none "a" none = .error "Session file not found: a.zip" ∧
    saveCatch "a.zip" ⟨some "57P01", "db down"⟩ = "Failed to save session: db down" := by
  have h := c7_error_taxonomy "a" ([] : Table) 0 none ⟨some "57P01", "db down"⟩
    (by decide) (by decide)
  exact ⟨h.1, h.2.1⟩

/-- C2: saving the same name twice with different contents leaves exactly
one row for the name; its `session_data` is the second content, its
`updated_at` equals the second save time (strictly greater than after the
first save), and its `created_at` is unchanged from the first save. -/
theorem c2_save_upsert (tbl : Table) (session : String) (t1 t2 : Nat) (ttl : Option Nat)
    (d1 d2 : List Nat) (tbl1 tbl2 : Table)
    (hfresh : ∀ r ∈ tbl, r.session_id ≠ getSessionId session)
    (ht : t1 < t2) (_hd : d1 ≠ d2)
    (h1 : save tbl t1 ttl session (some d1) = .ok tbl1)
    (h2 : save tbl1 t2 ttl session (some d2) = .ok tbl2) :
    tbl2.countP (fun r => r.session_id == getSessionId session) = 1 ∧
    ∀ r ∈ tbl2, r.session_id = getSessionId session →
      r.session_data = d2 ∧ r.updated_at = t2 ∧ r.created_at = t1 ∧
      ∀ r1 ∈ tbl1, r1.session_id = getSessionId session →
        r1.updated_at < r.updated_at ∧ r.created_at = r1.created_at := by
  rw [save_fresh tbl t1 ttl session d1 hfresh] at h1
  obtain rfl : _ = tbl1 := Except.ok.inj h1
  have hany : ((tbl ++ [(⟨getSessionId session, d1, saveMetadata session d1 t1,
      t1, t1, ttlExpiresAt ttl t1⟩ : Row)]).any
      fun r => r.session_id == getSessionId session) = true :=
    List.any_eq_true.mpr ⟨_, List.mem_append.mpr (Or.inr (List.mem_singleton.mpr rfl)),
      by simp⟩
  rw [save_conflict _ t2 ttl session d2 hany] at h2
  obtain rfl : _ = tbl2 := Except.ok.inj h2
  rw [List.map_append] at *
  have hmapfix : (tbl.map fun r =>
      if r.session_id == getSessionId session then
        upsertRow d2 (saveMetadata session d2 t2) t2 (ttlExpiresAt ttl t2) r
      else r) = tbl := by
    apply map_fix_eq_self
    intro r hr
    simp [hfresh r hr]
  rw [hmapfix]
  have hmapsing : (([(⟨getSessionId session, d1, saveMetadata session d1 t1,
      t1, t1, ttlExpiresAt ttl t1⟩ : Row)]).map fun r =>
      if r.session_id == getSessionId session then
        upsertRow d2 (saveMetadata session d2 t2) t2 (ttlExpiresAt ttl t2) r
      else r) =
      [⟨getSessionId session, d2, saveMetadata session d2 t2,
        t1, t2, ttlExpiresAt ttl t2⟩] := by
    simp [upsertRow]
  rw [hmapsing]
  constructor
  · rw [List.countP_append, List.countP_eq_zero.mpr (by intro r hr; simp [hfresh r hr])]
    simp
  · intro r hr hid
    rcases List.mem_append.mp hr with hin | hin
    · exact absurd hid (hfresh r hin)
    · rcases List.mem_singleton.mp hin with rfl
      refine ⟨rfl, rfl, rfl, ?_⟩
      intro r1 hr1 hid1
      rcases List.mem_append.mp hr1 with hin1 | hin1
      · exact absurd hid1 (hfresh r1 hin1)
      · rcases List.mem_singleton.mp hin1 with rfl
        exact ⟨ht, rfl⟩

/-- Witness for C2 at two concrete saves at times 0 and 1. -/
theorem c2_witness :
    ([⟨"whatsapp-a", [2], saveMetadata "a" [2] 1, 0, 1, none⟩] : Table).countP
      (fun r => r.session_id == getSessionId "a") = 1 :=
  (c2_save_upsert ([] : Table) "a" 0 1 none [1] [2]
    [⟨"whatsapp-a", [1], saveMetadata "a" [1] 0, 0, 0, none⟩]
    [⟨"whatsapp-a", [2], saveMetadata "a" [2] 1, 0, 1, none⟩]
    (by intro r hr; cases hr) (by decide) (by decide) (by decide) (by decide)).1

/-- `getSessionId` is injective: the namespaced ids of distinct names
differ. -/
theorem getSessionId_inj {a b : String} (h : getSessionId a = getSessionId b) : a = b := by
  have h2 := congrArg stripName h
  rwa [stripName_getSessionId, stripName_getSessionId] at h2

/-- C8: with "a" saved at `t1` and "b" saved at `t2 > t1`, both active at
the query time, `listSessions` returns the names `["b", "a"]` in that
order with the namespace prefix stripped; in general the listing contains
only active rows, ordered by `updated_at` descending. -/
theorem c8_listing_order_and_stripping (a b : String) (t1 t2 q : Nat) (ttl : Option Nat)
    (da db : List Nat) (tbl1 tbl2 : Table)
    (hab : a ≠ b) (ht : t1 < t2)
    (h1 : save ([] : Table) t1 ttl a (some da) = .ok tbl1)
    (h2 : save tbl1 t2 ttl b (some db) = .ok tbl2)
    (hq1 : activeExp q (ttlExpiresAt ttl t1) = true)
    (hq2 : activeExp q (ttlExpiresAt ttl t2) = true) :
    (listSessions tbl2 q).map SessionInfo.session = [b, a] ∧
    (∀ (tbl : Table) (now : Nat),
      ((listSessions tbl now).map SessionInfo.updatedAt).Pairwise (fun x y => y ≤ x) ∧
      ∀ e ∈ listSessions tbl now, ∃ r ∈ tbl, isActive now r = true ∧
        e.session = stripName r.session_id ∧ e.updatedAt = r.updated_at) := by
  constructor
  · rw [save_fresh ([] : Table) t1 ttl a da (by intro r hr; cases hr)] at h1
    obtain rfl : _ = tbl1 := Except.ok.inj h1
    rw [List.nil_append] at h2
    rw [save_fresh _ t2 ttl b db (by
      intro r hr he
      rcases List.mem_singleton.mp hr with rfl
      exact hab (getSessionId_inj he))] at h2
    obtain rfl : _ = tbl2 := Except.ok.inj h2
    rw [List.singleton_append]
    simp only [listSessions, List.filter]
    rw [show isActive q (⟨getSessionId a, da, saveMetadata a da t1,
          t1, t1, ttlExpiresAt ttl t1⟩ : Row) = true from hq1,
        show isActive q (⟨getSessionId b, db, saveMetadata b db t2,
          t2, t2, ttlExpiresAt ttl t2⟩ : Row) = true from hq2]
    simp only [List.insertionSort, List.orderedInsert]
    rw [if_neg (by
      show ¬ updGe (⟨getSessionId a, da, saveMetadata a da t1,
          t1, t1, ttlExpiresAt ttl t1⟩ : Row)
        (⟨getSessionId b, db, saveMetadata b db t2, t2, t2, ttlExpiresAt ttl t2⟩ : Row)
      exact Nat.not_le.mpr ht)]
    simp only [List.map_cons, List.map_nil]
    rw [stripName_getSessionId, stripName_getSessionId]
  · intro tbl now
    constructor
    · have hs := List.sorted_insertionSort updGe (tbl.filter (isActive now))
      simp only [listSessions, List.map_map]
      rw [List.pairwise_map]
      exact hs
    · intro e he
      simp only [listSessions, List.mem_map] at he
      obtain ⟨r, hr, rfl⟩ := he
      rw [List.mem_insertionSort] at hr
      obtain ⟨hmem, hact⟩ := List.mem_filter.mp hr
      exact ⟨r, hmem, hact, rfl, rfl⟩

/-- Witness for C8 at two concrete saves. -/
theorem c8_witness :
    (listSessions [⟨"whatsapp-a", [1], saveMetadata "a" [1] 0, 0, 0, none⟩,
                   ⟨"whatsapp-b", [2], saveMetadata "b" [2] 1, 1, 1, none⟩] 1).map
      SessionInfo.session = ["b", "a"] :=
  (c8_listing_order_and_stripping "a" "b" 0 1 1 none [1] [2]
    [⟨"whatsapp-a", [1], saveMetadata "a" [1] 0, 0, 0, none⟩]
    [⟨"whatsapp-a", [1], saveMetadata "a" [1] 0, 0, 0, none⟩,
     ⟨"whatsapp-b", [2], saveMetadata "b" [2] 1, 1, 1, none⟩]
    (by decide) (by decide) (by decide) (by decide) (by decide) (by decide)).1

/-- C1: a session saved at `t0` under TTL `T` is treated as present by
`sessionExists` / `extract` / `listSessions` / `getSessionMetadata` at
every query time before `t0 + T` seconds, and as absent (false /
not-found error / omitted / null) at or after it, even though the row
still physically exists — presence is decided exactly by the
`expires_at IS NULL OR expires_at > now()` predicate. -/
theorem c1_ttl_visibility (tbl : Table) (session : String) (t0 T q : Nat)
    (data : List Nat) (tbl2 : Table)
    (hstrip : ∀ r ∈ tbl, stripName r.session_id ≠ session)
    (hsave : save tbl t0 (some T) session (some data) = .ok tbl2) :
    (q < t0 + T * 1000 →
      sessionExists tbl2 q session = true ∧
      (extract tbl2 q session none).outcome = .ok (saveMetadata session data t0) ∧
      (∃ e ∈ listSessions tbl2 q, e.session = session) ∧
      getSessionMetadata tbl2 q session =
        some ⟨saveMetadata session data t0, t0, t0, some (t0 + T * 1000)⟩) ∧
    (t0 + T * 1000 ≤ q →
      sessionExists tbl2 q session = false ∧
      (extract tbl2 q session none).outcome =
        .error (extractCatch ⟨none, notFoundMsg session⟩) ∧
      (∀ e ∈ listSessions tbl2 q, e.session ≠ session) ∧
      getSessionMetadata tbl2 q session = none ∧
      ∃ r ∈ tbl2, r.session_id = getSessionId session) := by
  have hfresh : ∀ r ∈ tbl, r.session_id ≠ getSessionId session := by
    intro r hr he
    exact hstrip r hr (by rw [he, stripName_getSessionId])
  rw [save_fresh tbl t0 (some T) session data hfresh] at hsave
  obtain rfl : _ = tbl2 := Except.ok.inj hsave
  rw [show ttlExpiresAt (some T) t0 = some (t0 + T * 1000) from rfl]
  set newRow : Row := ⟨getSessionId session, data, saveMetadata session data t0,
    t0, t0, some (t0 + T * 1000)⟩ with hnewRow
  constructor
  · intro hq
    have hact : isActive q newRow = true := by
      simp [hnewRow, isActive, activeExp, hq]
    have hfnone : tbl.find? (fun r2 => r2.session_id == getSessionId session
        && isActive q r2) = none :=
      List.find?_eq_none.mpr (by intro r2 hr2; simp [hfresh r2 hr2])
    have hfind : (tbl ++ [newRow]).find? (fun r2 => r2.session_id == getSessionId session
        && isActive q r2) = some newRow := by
      rw [List.find?_append, hfnone, Option.none_or]
      simp [List.find?_cons, hnewRow, hact]
    refine ⟨?_, ?_, ?_, ?_⟩
    · simp only [sessionExists, decide_eq_true_eq]
      exact List.countP_pos_iff.mpr
        ⟨newRow, List.mem_append_right _ (List.mem_singleton.mpr rfl),
         by simp [hnewRow, hact]⟩
    · simp [extract, hfind, hnewRow]
    · refine ⟨⟨stripName newRow.session_id, newRow.metadata, newRow.created_at,
        newRow.updated_at, newRow.expires_at⟩, ?_, ?_⟩
      · simp only [listSessions]
        exact List.mem_map.mpr ⟨newRow, (List.mem_insertionSort updGe).mpr (List.mem_filter.mpr
          ⟨List.mem_append_right _ (List.mem_singleton.mpr rfl), hact⟩), rfl⟩
      · exact stripName_getSessionId session
    · simp [getSessionMetadata, hfind, hnewRow]
  · intro hq
    have hact : isActive q newRow = false := by
      simp [hnewRow, isActive, activeExp, Nat.not_lt.mpr hq]
    have hfnone2 : (tbl ++ [newRow]).find? (fun r2 => r2.session_id == getSessionId session
        && isActive q r2) = none :=
      List.find?_eq_none.mpr (by
        intro r2 hr2
        rcases List.mem_append.mp hr2 with hin | hin
        · simp [hfresh r2 hin]
        · rcases List.mem_singleton.mp hin with rfl
          simp [hact])
    have hzero : (tbl ++ [newRow]).countP (fun r => r.session_id == getSessionId session
        && isActive q r) = 0 := by
      rw [List.countP_append, List.countP_eq_zero.mpr (by intro r hr; simp [hfresh r hr])]
      simp [List.countP_cons, hact]
    refine ⟨?_, ?_, ?_, ?_, ?_⟩
    · simp [sessionExists, hzero]
    · simp [extract, hfnone2]
    · intro e he hes
      simp only [listSessions, List.mem_map] at he
      obtain ⟨r, hr, rfl⟩ := he
      rw [List.mem_insertionSort] at hr
      obtain ⟨hmem, hactr⟩ := List.mem_filter.mp hr
      rcases List.mem_append.mp hmem with hin | hin
      · exact hstrip r hin hes
      · rcases List.mem_singleton.mp hin with rfl
        rw [hact] at hactr
        cases hactr
    · simp [getSessionMetadata, hfnone2]
    · exact ⟨newRow, List.mem_append_right _ (List.mem_singleton.mpr rfl), rfl⟩

/-- Witness for C1: a session saved at time 0 with a 10-second TTL is
visible at query time 5000 ms and invisible at 10000 ms. -/
theorem c1_witness :
    sessionExists [⟨"whatsapp-a", [1], saveMetadata "a" [1] 0, 0, 0, some 10000⟩] 5000 "a"
      = true ∧
    sessionExists [⟨"whatsapp-a", [1], saveMetadata "a" [1] 0, 0, 0, some 10000⟩] 10000 "a"
      = false := by
  have h1 := c1_ttl_visibility ([] : Table) "a" 0 10 5000 [1]
    [⟨"whatsapp-a", [1], saveMetadata "a" [1] 0, 0, 0, some 10000⟩]
    (by intro r hr; cases hr) (by decide)
  have h2 := c1_ttl_visibility ([] : Table) "a" 0 10 10000 [1]
    [⟨"whatsapp-a", [1], saveMetadata "a" [1] 0, 0, 0, some 10000⟩]
    (by intro r hr; cases hr) (by decide)
  exact ⟨(h1.1 (by decide)).1, (h2.2 (by decide)).1⟩

end WwebjsPostgres
